import Mathlib

/-!
Shallow embedding of the resolution-and-scoring cache controller of
`src/rmp.rs` (the `Controller` type and its methods), together with the
reference algorithm of spec section 4.1, and proofs of the claims.

Modelling conventions:
* Rust `u32`/`u64` fields become `Nat`; the `i64` timestamp of a rating
  (`r.date.timestamp()`) becomes `Int`.  The `as u64` cast of an `i64` and
  the wrapping `u64` subtraction are modelled explicitly (`u64ofInt`,
  `usub64`), since claims C1/C10 are about exactly that arithmetic.
* `f32`/`f64` arithmetic is modelled over `ℚ`; the only transcendental
  operation, `f32::ln_1p`, is passed in as an abstract parameter
  `ln1p : ℚ → ℚ` shared by the code model and the spec reference model.
* The clock read `SystemTime::now()...as_secs()` inside `_weighted_score`
  becomes an explicit parameter `now : Nat`.
* The two `HashMap`s of `ControllerData` become association lists with
  first-match lookup; `HashMap::insert` on a key that is absent (the only
  insertion pattern the code performs) is modelled by consing.
* The upstream HTTP calls become an `Upstream` oracle: `none` models a
  failed (network or parse error) request, `some` a successful one.
  Resolution and overview results carry counters of how many upstream
  search calls and ratings-fetch calls were performed.
* `Arc<Mutex<Professor>>` handles are identified by the professor id
  (`rmp_id`): the id names the record in `id_professor_map`, and mutation
  through the handle is modelled by updating the map at that id.
-/

/-- Fields `userId` / `thumbsDown` / `thumbsUp` of a `Thumb` (all `u32`). -/
structure Thumb where
  user_id : Nat
  thumbs_down : Nat
  thumbs_up : Nat
deriving DecidableEq, Repr

/-- One review record, `Rating` in `rmp.rs`.  `date_ts` is the value of
`r.date.timestamp()` (an `i64`), which is all the code reads of the date;
`class_` models the Rust field `class` (a Lean keyword). -/
structure Rating where
  attendance_mandatory : Option Bool
  clarity : Nat
  class_ : String
  comment : String
  course_type : Option Nat
  date_ts : Int
  difficulty : Nat
  grade : String
  helpful : Nat
  tags : String
  textbook_use : Option Nat
  thumbs : List Thumb
  thumbs_down : Nat
  thumbs_up : Nat
  would_take_again : Option Bool
deriving DecidableEq, Repr

/-- A search hit, `ProfessorResponse` in `rmp.rs` (`averageratingscore_rf`
is an `Option<f32>`, modelled over `ℚ`). -/
structure ProfessorResponse where
  id : String
  score : Option ℚ
  first_name : String
  last_name : String
  full_name : String
  department : String
deriving DecidableEq, Repr

/-- One group of the grouped Solr response: `groupValue` and the documents
of its `doclist`. -/
structure GroupResponse where
  group_name : String
  docs : List ProfessorResponse
deriving DecidableEq, Repr

/-- Derived value, `Score` in `rmp.rs`: optional overall quality and
optional 1-year quality (both `Option<f32>`, modelled over `ℚ`). -/
structure Score where
  quality : Option ℚ
  quality_yr : Option ℚ
deriving DecidableEq, Repr

/-- A cached professor record, `Professor` in `rmp.rs`. -/
structure Professor where
  rmp_id : Nat
  score : Option Score
  first_name : String
  last_name : String
  full_name : String
  department : String
deriving DecidableEq, Repr

/-- The controller state behind the mutex, `ControllerData` in `rmp.rs`.
The two `HashMap`s are association lists with first-match lookup. -/
structure ControllerData where
  rmp_graphql_token : Option String
  name_id_map : List (String × List Nat)
  id_professor_map : List (Nat × Professor)
deriving DecidableEq, Repr

/-- Model of `Controller::new()`: empty caches. -/
def ControllerData.new : ControllerData :=
  { rmp_graphql_token := none, name_id_map := [], id_professor_map := [] }

/-- The `i64 as u64` cast: two-complement reinterpretation, i.e. the value
modulo `2 ^ 64`. -/
def u64ofInt (t : Int) : Nat := (t % (2 ^ 64 : Int)).toNat

/-- Wrapping `u64` subtraction (release-mode semantics of `a - b`), for
`a, b < 2 ^ 64`. -/
def usub64 (a b : Nat) : Nat := ((a + 2 ^ 64) - b) % 2 ^ 64

/-- Code line 550: `let quality = (r.helpful + r.clarity) as f32 / 2.0`. -/
def qualityOf (r : Rating) : ℚ := ((r.helpful : ℚ) + (r.clarity : ℚ)) / 2

/-- Code line 552:
`thumbs_weight = (r.thumbs_up + 1) / (r.thumbs_up + r.thumbs_down + 1)`. -/
def thumbsWeight (r : Rating) : ℚ :=
  ((r.thumbs_up : ℚ) + 1) / ((r.thumbs_up : ℚ) + (r.thumbs_down : ℚ) + 1)

/-- Code line 553: `time_weight = ((r.date.timestamp() as u64 - offsetted)
as f64 / offset as f64) as f32`, with the wrapping `u64` subtraction
explicit. -/
def timeWeight (offsetted offset : Nat) (r : Rating) : ℚ :=
  ((usub64 (u64ofInt r.date_ts) offsetted : Nat) : ℚ) / (offset : ℚ)

/-- Code line 554: `quantity_weight = ((thumbs_up + thumbs_down) as f32 /
2.0).ln_1p() + 1.0`, with `ln_1p` abstract. -/
def quantityWeight (ln1p : ℚ → ℚ) (r : Rating) : ℚ :=
  ln1p (((r.thumbs_up : ℚ) + (r.thumbs_down : ℚ)) / 2) + 1

/-- The body of the `for` loop of `Controller::_weighted_score`
(lines 545-560): skip a rating dated before `offsetted`, otherwise add its
weighted quality to the running sum and its sample weight to the running
total weight. -/
def scoreStep (ln1p : ℚ → ℚ) (offsetted offset : Nat) (acc : ℚ × ℚ)
    (r : Rating) : ℚ × ℚ :=
  if u64ofInt r.date_ts < offsetted then acc
  else
    let avg_weight := thumbsWeight r * timeWeight offsetted offset r *
      quantityWeight ln1p r
    (acc.1 + qualityOf r * avg_weight, acc.2 + avg_weight)

/-- Model of `Controller::_weighted_score(data, offset)` (lines 539-563):
clock read `SystemTime::now()...as_secs()` made an explicit `now`
parameter.  `offsetted = now - offset` uses wrapping `u64` subtraction;
returns `(quality_ratings_sum, total_weight)`. -/
def _weighted_score (ln1p : ℚ → ℚ) (now : Nat) (data : List Rating)
    (offset : Nat) : ℚ × ℚ :=
  data.foldl (scoreStep ln1p (usub64 now offset) offset) (0, 0)

/-- Spec section 4.1, step 2: `quality = (helpful + clarity) / 2`. -/
def spec_quality (r : Rating) : ℚ := ((r.helpful : ℚ) + (r.clarity : ℚ)) / 2

/-- Spec section 4.1:
`thumbs_weight = (thumbs_up + 1) / (thumbs_up + thumbs_down + 1)`. -/
def spec_thumbs_weight (r : Rating) : ℚ :=
  ((r.thumbs_up : ℚ) + 1) / ((r.thumbs_up : ℚ) + (r.thumbs_down : ℚ) + 1)

/-- Spec section 4.1: `time_weight = (timestamp - cutoff) / window_seconds`
(over the integer cutoff `now - window`). -/
def spec_time_weight (cutoff : Int) (window : Nat) (r : Rating) : ℚ :=
  ((r.date_ts : ℚ) - (cutoff : ℚ)) / (window : ℚ)

/-- Spec section 4.1:
`quantity_weight = ln(1 + (thumbs_up + thumbs_down)/2) + 1`. -/
def spec_quantity_weight (ln1p : ℚ → ℚ) (r : Rating) : ℚ :=
  ln1p (((r.thumbs_up : ℚ) + (r.thumbs_down : ℚ)) / 2) + 1

/-- Spec section 4.1:
`sample_weight = thumbs_weight * time_weight * quantity_weight`. -/
def spec_sample_weight (ln1p : ℚ → ℚ) (cutoff : Int) (window : Nat)
    (r : Rating) : ℚ :=
  spec_thumbs_weight r * spec_time_weight cutoff window r *
    spec_quantity_weight ln1p r

/-- The reference algorithm of spec section 4.1, written from the spec
words (the comparison point for claim C1): discard ratings with timestamp
strictly before `cutoff = now - window`, then `sum` accumulates
`quality * sample_weight` and `weight` accumulates `sample_weight`. -/
def weighted_score_spec (ln1p : ℚ → ℚ) (now : Nat) (data : List Rating)
    (window : Nat) : ℚ × ℚ :=
  let cutoff : Int := (now : Int) - (window : Int)
  let kept := data.filter (fun r => decide (cutoff ≤ r.date_ts))
  ((kept.map (fun r => spec_quality r * spec_sample_weight ln1p cutoff window r)).sum,
   (kept.map (spec_sample_weight ln1p cutoff window)).sum)

/-- Checked `Nat` subtraction, failing instead of wrapping: `none` marks the
event that the `u64` subtraction in the source would wrap (a debug-mode
overflow panic). -/
def checkedSub (a b : Nat) : Option Nat := if a < b then none else some (a - b)

/-- Variant of `Controller::_weighted_score` with both `u64` subtractions
(line 543 `now - offset` and line 553 `timestamp as u64 - offsetted`)
checked: the result is `none` when either would wrap.  Used by claim C10
to express that the unsigned arithmetic is safe. -/
def checkedStep (ln1p : ℚ → ℚ) (offsetted offset : Nat) (acc : ℚ × ℚ)
    (r : Rating) : Option (ℚ × ℚ) :=
  if u64ofInt r.date_ts < offsetted then some acc
  else
    match checkedSub (u64ofInt r.date_ts) offsetted with
    | none => none
    | some d =>
      let avg_weight := thumbsWeight r * ((d : ℚ) / (offset : ℚ)) *
        quantityWeight ln1p r
      some (acc.1 + qualityOf r * avg_weight, acc.2 + avg_weight)

def _weighted_score_checked (ln1p : ℚ → ℚ) (now : Nat) (data : List Rating)
    (offset : Nat) : Option (ℚ × ℚ) :=
  match checkedSub now offset with
  | none => none
  | some offsetted =>
    data.foldlM (checkedStep ln1p offsetted offset) (0, 0)

/-- The `Score` built by `Controller::professor_overview` (lines 409-412)
from the two `(sum, weight)` pairs: a published quality only when the
weight clears its threshold (8.0 overall, 2.0 for the 1-year window). -/
def overviewScore (score weight score_yr weight_yr : ℚ) : Score :=
  { quality := if weight < 8 then none else some (score / weight),
    quality_yr := if weight_yr < 2 then none else some (score_yr / weight_yr) }

/-! ### String operations

Rust `str::to_lowercase`, `str::replace` and `str::parse::<u32>` are
modelled over `String.data` (`List Char`) so that they compute by kernel
reduction.  `Char.toLower` is the ASCII case mapping, which agrees with
Rust on ASCII names. -/

/-- Model of `name.to_lowercase()`. -/
def toLowerStr (s : String) : String := ⟨s.data.map Char.toLower⟩

/-- Replace every non-overlapping occurrence of `pat` in `s` left to
right, driven by a character-count fuel (one character is consumed per
step, so `s.length` fuel is always enough). -/
def replaceLoop (pat rep : List Char) : Nat → List Char → List Char
  | 0, s => s
  | n + 1, s =>
    match s with
    | [] => []
    | c :: cs =>
      if decide (pat ≠ []) && pat.isPrefixOf s then
        rep ++ replaceLoop pat rep n (s.drop pat.length)
      else c :: replaceLoop pat rep n cs

/-- Model of Rust `s.replace(pat, rep)` (all occurrences). -/
def replaceStr (s pat rep : String) : String :=
  ⟨replaceLoop pat.data rep.data s.data.length s.data⟩

/-- Model of `s.parse::<u32>()`: an optional leading `+`, then ASCII
digits, value at most `u32::MAX`; anything else is `none`. -/
def parseU32 (s : String) : Option Nat :=
  let digits := match s.data with
    | '+' :: rest => rest
    | l => l
  if digits ≠ [] ∧ digits.all Char.isDigit then
    let v := digits.foldl (fun a c => a * 10 + (c.toNat - 48)) 0
    if v < 2 ^ 32 then some v else none
  else none

/-- Model of `r.id.replace("teacher:", "").parse::<u32>()`: the id extraction
applied to each search hit (lines 448-449 and 458). -/
def parseProfId (s : String) : Option Nat := parseU32 (replaceStr s "teacher:" "")

/-- The two upstream capabilities the claims exercise, as oracles:
`searchResp name` is the parsed grouped body of the Solr search for
`name` (`resp.grouped.inner.groups`), `none` modelling a network or parse
failure; `fetchRatings id course` is the ratings list of the GraphQL query
(including the token fetch inside `_professor_comments`), `none` again
modelling failure. -/
structure Upstream where
  searchResp : String → Option (List GroupResponse)
  fetchRatings : Nat → Option String → Option (List Rating)

/-- The candidate extraction of `Controller::_search_professor`
(lines 496-507): the documents of the first group named `"TEACHER"`, or
the empty list when there is no such group. -/
def _search_professor_extract (groups : List GroupResponse) : List ProfessorResponse :=
  match groups.find? (fun g => g.group_name == "TEACHER") with
  | some g => g.docs
  | none => []

/-- Model of `Controller::_search_professor(name)`: perform the search and
extract the teacher documents; fails iff the HTTP request or JSON parse
fails. -/
def _search_professor (up : Upstream) (name : String) :
    Option (List ProfessorResponse) :=
  (up.searchResp name).map _search_professor_extract

/-- The professor-record insertion loop of `_name_to_professor`
(lines 457-477): for every hit whose id parses, insert a fresh scoreless
record unless the id is already present (first write wins). -/
def ingestProfessors (res : List ProfessorResponse) (st : ControllerData) :
    ControllerData :=
  res.foldl (fun acc pr =>
    match parseProfId pr.id with
    | some id =>
      if (acc.id_professor_map.lookup id).isSome then acc
      else { acc with id_professor_map :=
        (id, { rmp_id := id, score := none, first_name := pr.first_name,
               last_name := pr.last_name, full_name := pr.full_name,
               department := pr.department }) :: acc.id_professor_map }
    | none => acc) st

/-- Result of `Controller::_name_to_professor`: the record handle (the
professor id names the `Arc<Mutex<Professor>>`, and we return the record
it designates), the controller state after the call, and how many
upstream search calls were made. -/
structure ResolveResult where
  professor : Option Professor
  state : ControllerData
  searches : Nat
deriving DecidableEq, Repr

/-- Model of `Controller::_name_to_professor(name)` (lines 435-485): lower the
name; on an identity-index hit return the first candidate's record; on a
miss perform the upstream search (propagating failure without touching any
state), cache the parsed candidate list under the lower-cased name, ingest
the hits into the record store, and return the first candidate's record. -/
def _name_to_professor (up : Upstream) (st : ControllerData) (name : String) :
    ResolveResult :=
  let name := toLowerStr name
  match st.name_id_map.lookup name with
  | some ids =>
    { professor := ids.head?.bind (fun id => st.id_professor_map.lookup id),
      state := st, searches := 0 }
  | none =>
    match up.searchResp name with
    | none => { professor := none, state := st, searches := 1 }
    | some groups =>
      let res := _search_professor_extract groups
      let ids := res.filterMap (fun r => parseProfId r.id)
      let id_opt := ids.head?
      let st1 : ControllerData :=
        { st with name_id_map := (name, ids) :: st.name_id_map }
      let st2 := ingestProfessors res st1
      { professor := id_opt.bind (fun id => st2.id_professor_map.lookup id),
        state := st2, searches := 1 }

/-- Result of `Controller::professor_overview`: the returned handle (the
id of the returned `Arc<Mutex<Professor>>`, `none` when the operation
returns `None`), the controller state after the call, and how many
upstream search calls and ratings-fetch calls were made. -/
structure OverviewResult where
  handle : Option Nat
  state : ControllerData
  searches : Nat
  fetches : Nat
deriving DecidableEq, Repr

/-- Model of `Controller::professor_overview(name)` (lines 396-421): resolve the
name; if the record already has a score return it unchanged; otherwise
fetch the ratings (`none` course filter), compute both windowed scores
(window constants 157680000 and 31536000 seconds), store the assembled
`Score` on the record, and return the handle.  `now` is the clock reading
used by `_weighted_score`. -/
def professor_overview (up : Upstream) (ln1p : ℚ → ℚ) (now : Nat)
    (st : ControllerData) (name : String) : OverviewResult :=
  let rr := _name_to_professor up st name
  match rr.professor with
  | none => { handle := none, state := rr.state, searches := rr.searches, fetches := 0 }
  | some pr =>
    match pr.score with
    | some _ =>
      { handle := some pr.rmp_id, state := rr.state, searches := rr.searches,
        fetches := 0 }
    | none =>
      match up.fetchRatings pr.rmp_id none with
      | none =>
        { handle := none, state := rr.state, searches := rr.searches, fetches := 1 }
      | some resp =>
        let sw := _weighted_score ln1p now resp 157680000
        let swyr := _weighted_score ln1p now resp 31536000
        let professor_score := overviewScore sw.1 sw.2 swyr.1 swyr.2
        { handle := some pr.rmp_id,
          state := { rr.state with id_professor_map :=
            (pr.rmp_id, { pr with score := some professor_score }) ::
              rr.state.id_professor_map },
          searches := rr.searches, fetches := 1 }

/-- The Score held by the record that `id` designates in state `st` (what
a caller reads through a returned handle). -/
def scoreOf (st : ControllerData) (id : Nat) : Option Score :=
  (st.id_professor_map.lookup id).bind Professor.score

/-- Well-formedness of the record store: every entry's record carries the
entry's key as its `rmp_id`.  This holds for every reachable state (the
store starts empty and every insertion uses the record's id as key). -/
def StoreWF (st : ControllerData) : Prop :=
  ∀ e ∈ st.id_professor_map, Professor.rmp_id e.2 = e.1

instance (st : ControllerData) : Decidable (StoreWF st) := by
  unfold StoreWF; infer_instance

/-- A concrete search response: one teacher hit with id `teacher:42`. -/
def janeGroups : List GroupResponse :=
  [{ group_name := "TEACHER",
     docs := [{ id := "teacher:42", score := none, first_name := "Jane",
                last_name := "Doe", full_name := "Jane Doe",
                department := "Math" }] }]

/-- A concrete search response whose only hit has an id that does not
parse after stripping `teacher:`. -/
def ghostGroups : List GroupResponse :=
  [{ group_name := "TEACHER",
     docs := [{ id := "teacher:abc", score := none, first_name := "Gho",
                last_name := "St", full_name := "Gho St",
                department := "Mist" }] }]

/-- A concrete upstream used by the witnesses: searching "jane doe" finds
`teacher:42`, searching "ghost" succeeds with an unparsable hit, any other
search fails; fetching ratings succeeds (with an empty list) only for
professor 42. -/
def upFixture : Upstream where
  searchResp := fun s =>
    if s = "jane doe" then some janeGroups
    else if s = "ghost" then some ghostGroups
    else none
  fetchRatings := fun id _ => if id = 42 then some [] else none

/-- A rating with the given quality numbers, timestamp and thumbs counts
(the fields `_weighted_score` reads); every other field is inert. -/
def mkRating (helpful clarity : Nat) (ts : Int) (tu td : Nat) : Rating :=
  { attendance_mandatory := none, clarity := clarity, class_ := "",
    comment := "", course_type := none, date_ts := ts, difficulty := 0,
    grade := "", helpful := helpful, tags := "", textbook_use := none,
    thumbs := [], thumbs_down := td, thumbs_up := tu,
    would_take_again := none }

example :
    _weighted_score (fun _ => 0) 1000 [mkRating 4 4 1000 0 0] 100 = (4, 1) := by
  simp [_weighted_score, scoreStep, qualityOf, thumbsWeight, timeWeight,
    quantityWeight, usub64, u64ofInt, mkRating]

/-! ### Arithmetic facts about the `u64` model -/

theorem usub64_eq_sub {a b : Nat} (hba : b ≤ a) (ha : a < 2 ^ 64) :
    usub64 a b = a - b := by
  unfold usub64
  omega

theorem u64ofInt_eq_toNat {t : Int} (h0 : 0 ≤ t) (ht : t < 2 ^ 64) :
    u64ofInt t = t.toNat := by
  unfold u64ofInt
  rw [Int.emod_eq_of_lt h0 ht]

theorem u64ofInt_lt (t : Int) : u64ofInt t < 2 ^ 64 := by
  unfold u64ofInt
  have h1 := Int.emod_nonneg t (show (2 ^ 64 : Int) ≠ 0 by norm_num)
  have h2 := Int.emod_lt_of_pos t (show (0 : Int) < 2 ^ 64 by norm_num)
  omega

/-- Code-side and spec-side per-rating weights coincide on a kept,
epoch-or-later rating. -/
theorem timeWeight_eq_spec {now window : Nat} {r : Rating}
    (hw : window ≤ now) (hn : now < 2 ^ 64)
    (h0 : 0 ≤ r.date_ts) (h63 : r.date_ts < 2 ^ 63)
    (hk : ¬ u64ofInt r.date_ts < now - window) :
    timeWeight (now - window) window r =
      spec_time_weight ((now : Int) - (window : Int)) window r := by
  unfold timeWeight spec_time_weight
  have htn : u64ofInt r.date_ts = r.date_ts.toNat :=
    u64ofInt_eq_toNat h0 (by omega)
  rw [htn] at hk ⊢
  rw [usub64_eq_sub (by omega) (by omega)]
  congr 1
  have hz : ((r.date_ts.toNat - (now - window) : Nat) : ℤ) =
      r.date_ts - ((now : ℤ) - (window : ℤ)) := by omega
  push_cast at hz ⊢
  exact_mod_cast hz

theorem sampleWeight_eq_spec {ln1p : ℚ → ℚ} {now window : Nat} {r : Rating}
    (hw : window ≤ now) (hn : now < 2 ^ 64)
    (h0 : 0 ≤ r.date_ts) (h63 : r.date_ts < 2 ^ 63)
    (hk : ¬ u64ofInt r.date_ts < now - window) :
    thumbsWeight r * timeWeight (now - window) window r *
        quantityWeight ln1p r =
      spec_sample_weight ln1p ((now : Int) - (window : Int)) window r := by
  unfold spec_sample_weight spec_thumbs_weight spec_quantity_weight
    thumbsWeight quantityWeight
  rw [timeWeight_eq_spec hw hn h0 h63 hk]

/-- A kept rating is exactly an in-window rating, under the C1/C10
preconditions. -/
theorem kept_iff_spec {now window : Nat} {r : Rating}
    (hw : window ≤ now) (hn : now < 2 ^ 64)
    (h0 : 0 ≤ r.date_ts) (h63 : r.date_ts < 2 ^ 63) :
    (¬ u64ofInt r.date_ts < now - window) ↔
      ((now : Int) - (window : Int) ≤ r.date_ts) := by
  rw [u64ofInt_eq_toNat h0 (by omega)]
  omega

theorem foldl_scoreStep_spec (ln1p : ℚ → ℚ) (now window : Nat)
    (hw : window ≤ now) (hn : now < 2 ^ 64) :
    ∀ (data : List Rating),
      (∀ r ∈ data, 0 ≤ r.date_ts ∧ r.date_ts < 2 ^ 63) →
      ∀ a b : ℚ,
        data.foldl (scoreStep ln1p (now - window) window) (a, b) =
          (a + ((data.filter
              (fun r => decide (((now : Int) - (window : Int)) ≤ r.date_ts))).map
              (fun r => spec_quality r *
                spec_sample_weight ln1p ((now : Int) - (window : Int)) window r)).sum,
           b + ((data.filter
              (fun r => decide (((now : Int) - (window : Int)) ≤ r.date_ts))).map
              (spec_sample_weight ln1p ((now : Int) - (window : Int)) window)).sum) := by
  intro data
  induction data with
  | nil => intro _ a b; simp
  | cons r tl ih =>
    intro hall a b
    have hr := hall r (List.mem_cons_self r tl)
    have htl : ∀ x ∈ tl, 0 ≤ x.date_ts ∧ x.date_ts < 2 ^ 63 :=
      fun x hx => hall x (List.mem_cons_of_mem r hx)
    by_cases hk : u64ofInt r.date_ts < now - window
    · have hb : ¬ ((fun r : Rating =>
          decide (((now : Int) - (window : Int)) ≤ r.date_ts)) r = true) := by
        simp only [decide_eq_true_eq]
        rw [← kept_iff_spec hw hn hr.1 hr.2]
        simp [hk]
      rw [List.foldl_cons,
        show scoreStep ln1p (now - window) window (a, b) r = (a, b) by
          simp [scoreStep, hk],
        ih htl a b]
      simp only [List.filter_cons]
      rw [if_neg hb]
    · have hb : ((fun r : Rating =>
          decide (((now : Int) - (window : Int)) ≤ r.date_ts)) r = true) := by
        simp only [decide_eq_true_eq]
        exact (kept_iff_spec hw hn hr.1 hr.2).mp hk
      rw [List.foldl_cons,
        show scoreStep ln1p (now - window) window (a, b) r =
            (a + qualityOf r * (thumbsWeight r * timeWeight (now - window) window r *
              quantityWeight ln1p r),
             b + (thumbsWeight r * timeWeight (now - window) window r *
              quantityWeight ln1p r)) by
          simp [scoreStep, hk],
        ih htl]
      simp only [List.filter_cons]
      rw [if_pos hb, sampleWeight_eq_spec hw hn hr.1 hr.2 hk,
        show qualityOf r = spec_quality r from rfl]
      simp only [List.map_cons, List.sum_cons, Prod.mk.injEq]
      constructor <;> ring

/-- C1, amended: under the stated preconditions, the scorer agrees with
the spec section 4.1 reference algorithm. -/
theorem weighted_score_matches_spec (ln1p : ℚ → ℚ) (now : Nat)
    (data : List Rating) (window : Nat)
    (hw : window ≤ now) (hn : now < 2 ^ 64)
    (hts : ∀ r ∈ data, 0 ≤ r.date_ts ∧ r.date_ts < 2 ^ 63) :
    _weighted_score ln1p now data window =
      weighted_score_spec ln1p now data window := by
  unfold _weighted_score weighted_score_spec
  rw [usub64_eq_sub hw hn]
  rw [foldl_scoreStep_spec ln1p now window hw hn data hts 0 0]
  simp

/-- The checked step never fails: the age filter guards the only
subtraction of the loop body. -/
theorem foldlM_checkedStep_eq (ln1p : ℚ → ℚ) (offsetted offset : Nat) :
    ∀ (data : List Rating) (acc : ℚ × ℚ),
      data.foldlM (checkedStep ln1p offsetted offset) acc =
        some (data.foldl (scoreStep ln1p offsetted offset) acc) := by
  intro data
  induction data with
  | nil => intro acc; rfl
  | cons r tl ih =>
    intro acc
    rw [List.foldlM_cons, List.foldl_cons]
    by_cases hk : u64ofInt r.date_ts < offsetted
    · rw [show checkedStep ln1p offsetted offset acc r = some acc by
        simp [checkedStep, hk]]
      rw [show scoreStep ln1p offsetted offset acc r = acc by
        simp [scoreStep, hk]]
      exact ih acc
    · have hle : offsetted ≤ u64ofInt r.date_ts := Nat.le_of_not_lt hk
      have hcs : checkedSub (u64ofInt r.date_ts) offsetted =
          some (u64ofInt r.date_ts - offsetted) := by
        simp [checkedSub, hk]
      have hus : usub64 (u64ofInt r.date_ts) offsetted =
          u64ofInt r.date_ts - offsetted :=
        usub64_eq_sub hle (u64ofInt_lt r.date_ts)
      rw [show checkedStep ln1p offsetted offset acc r =
          some (scoreStep ln1p offsetted offset acc r) by
        simp [checkedStep, scoreStep, hk, hcs, timeWeight, hus]]
      exact ih _

/-! ### Association-list facts -/

theorem lookup_cons_self {α β : Type} [BEq α] [LawfulBEq α] (k : α) (v : β)
    (l : List (α × β)) : List.lookup k ((k, v) :: l) = some v := by
  simp [List.lookup_cons]

theorem lookup_cons_ne {α β : Type} [BEq α] [LawfulBEq α] {k k2 : α} (v : β)
    (l : List (α × β)) (h : k ≠ k2) :
    List.lookup k ((k2, v) :: l) = List.lookup k l := by
  simp [List.lookup_cons, beq_false_of_ne h]

theorem mem_of_lookup {α β : Type} [BEq α] [LawfulBEq α] {l : List (α × β)}
    {a : α} {b : β} (h : l.lookup a = some b) : (a, b) ∈ l := by
  induction l with
  | nil => simp [List.lookup] at h
  | cons e tl ih =>
    obtain ⟨k1, v1⟩ := e
    rw [List.lookup_cons] at h
    rcases hbeq : a == k1 with _ | _
    · rw [hbeq] at h
      exact List.mem_cons_of_mem _ (ih h)
    · rw [hbeq] at h
      cases h
      have hak : a = k1 := by simpa using hbeq
      simp [hak]

/-! ### Facts about the resolver's state updates -/

/-- The professor-ingestion loop never touches the identity index. -/
theorem ingestProfessors_name_id_map (res : List ProfessorResponse) :
    ∀ st : ControllerData,
      (ingestProfessors res st).name_id_map = st.name_id_map := by
  induction res with
  | nil => intro st; rfl
  | cons pr tl ih =>
    intro st
    unfold ingestProfessors
    rw [List.foldl_cons]
    show (ingestProfessors tl _).name_id_map = _
    rw [ih]
    rcases parseProfId pr.id with _ | id <;> simp
    split <;> rfl

/-- The professor-ingestion loop preserves store well-formedness: every
record it inserts carries its key as `rmp_id`. -/
theorem ingestProfessors_WF (res : List ProfessorResponse) :
    ∀ st : ControllerData, StoreWF st → StoreWF (ingestProfessors res st) := by
  induction res with
  | nil => intro st h; exact h
  | cons pr tl ih =>
    intro st h
    unfold ingestProfessors
    rw [List.foldl_cons]
    show StoreWF (ingestProfessors tl _)
    apply ih
    rcases parseProfId pr.id with _ | id
    · exact h
    · simp only
      split
      · exact h
      · intro e he
        rcases List.mem_cons.mp he with he1 | he2
        · rw [he1]
        · exact h e he2

/-- When no hit's id parses, the ingestion loop is the identity. -/
theorem ingestProfessors_of_none (res : List ProfessorResponse)
    (h : ∀ pr ∈ res, parseProfId pr.id = none) :
    ∀ st : ControllerData, ingestProfessors res st = st := by
  induction res with
  | nil => intro st; rfl
  | cons pr tl ih =>
    intro st
    unfold ingestProfessors
    rw [List.foldl_cons]
    show ingestProfessors tl _ = st
    rw [h pr (List.mem_cons_self pr tl)]
    exact ih (fun x hx => h x (List.mem_cons_of_mem pr hx)) st

/-- What a successful resolution guarantees: the lower-cased name is in
the identity index, its first candidate is the returned record's id, the
store maps that id to the returned record, and the store stays
well-formed. -/
theorem name_to_professor_some (up : Upstream) (st : ControllerData)
    (name : String) (pr : Professor) (hwf : StoreWF st)
    (h : (_name_to_professor up st name).professor = some pr) :
    (∃ ids, ((_name_to_professor up st name).state).name_id_map.lookup
        (toLowerStr name) = some ids ∧ ids.head? = some pr.rmp_id) ∧
    ((_name_to_professor up st name).state).id_professor_map.lookup
        pr.rmp_id = some pr ∧
    StoreWF ((_name_to_professor up st name).state) := by
  rcases hm : List.lookup (toLowerStr name) st.name_id_map with _ | ids
  · rcases hs : up.searchResp (toLowerStr name) with _ | groups
    · simp [_name_to_professor, hm, hs] at h
    · simp only [_name_to_professor, hm, hs] at h ⊢
      rcases hh : (List.filterMap (fun r => parseProfId r.id)
          (_search_professor_extract groups)).head? with _ | id0
      · rw [hh] at h
        simp at h
      · rw [hh] at h
        simp only [Option.some_bind] at h
        have hwf2 : StoreWF (ingestProfessors (_search_professor_extract groups)
            { st with name_id_map := (toLowerStr name,
                List.filterMap (fun r => parseProfId r.id)
                  (_search_professor_extract groups)) :: st.name_id_map }) :=
          ingestProfessors_WF _ _ hwf
        have hpr : Professor.rmp_id pr = id0 := hwf2 (id0, pr) (mem_of_lookup h)
        refine ⟨⟨List.filterMap (fun r => parseProfId r.id)
          (_search_professor_extract groups), ?_, ?_⟩, ?_, hwf2⟩
        · rw [ingestProfessors_name_id_map]
          exact lookup_cons_self _ _ _
        · rw [hpr]
          exact hh
        · rw [hpr]
          exact h
  · simp only [_name_to_professor, hm] at h ⊢
    rcases hh : ids.head? with _ | id0
    · rw [hh] at h
      simp at h
    · rw [hh] at h
      simp only [Option.some_bind] at h
      have hpr : Professor.rmp_id pr = id0 := hwf (id0, pr) (mem_of_lookup h)
      refine ⟨⟨ids, rfl, ?_⟩, ?_, hwf⟩
      · rw [hpr]
        exact hh
      · rw [hpr]
        exact h

/-- On an identity-index hit the resolver performs no upstream call and
leaves the state untouched. -/
theorem name_to_professor_of_hit (up : Upstream) (st : ControllerData)
    (name : String) (ids : List Nat)
    (hm : st.name_id_map.lookup (toLowerStr name) = some ids) :
    _name_to_professor up st name =
      { professor := ids.head?.bind (fun id => st.id_professor_map.lookup id),
        state := st, searches := 0 } := by
  simp [_name_to_professor, hm]

theorem professor_overview_of_none (up : Upstream) (ln1p : ℚ → ℚ) (now : Nat)
    (st : ControllerData) (name : String)
    (h : (_name_to_professor up st name).professor = none) :
    professor_overview up ln1p now st name =
      { handle := none, state := (_name_to_professor up st name).state,
        searches := (_name_to_professor up st name).searches, fetches := 0 } := by
  simp [professor_overview, h]

/-- The cache-hit path of `professor_overview` (lines 401-403): a record
that already has a Score is returned unchanged with no ratings fetch. -/
theorem professor_overview_of_scored (up : Upstream) (ln1p : ℚ → ℚ) (now : Nat)
    (st : ControllerData) (name : String) (pr : Professor) (sc : Score)
    (h : (_name_to_professor up st name).professor = some pr)
    (hsc : pr.score = some sc) :
    professor_overview up ln1p now st name =
      { handle := some pr.rmp_id, state := (_name_to_professor up st name).state,
        searches := (_name_to_professor up st name).searches, fetches := 0 } := by
  simp [professor_overview, h, hsc]

theorem professor_overview_of_fetch_fail (up : Upstream) (ln1p : ℚ → ℚ)
    (now : Nat) (st : ControllerData) (name : String) (pr : Professor)
    (h : (_name_to_professor up st name).professor = some pr)
    (hsc : pr.score = none)
    (hf : up.fetchRatings pr.rmp_id none = none) :
    professor_overview up ln1p now st name =
      { handle := none, state := (_name_to_professor up st name).state,
        searches := (_name_to_professor up st name).searches, fetches := 1 } := by
  simp [professor_overview, h, hsc, hf]

/-- The cold path of `professor_overview` (lines 405-417): fetch, score
both windows, store the Score on the record, return the handle. -/
theorem professor_overview_of_fetch (up : Upstream) (ln1p : ℚ → ℚ) (now : Nat)
    (st : ControllerData) (name : String) (pr : Professor) (resp : List Rating)
    (h : (_name_to_professor up st name).professor = some pr)
    (hsc : pr.score = none)
    (hf : up.fetchRatings pr.rmp_id none = some resp) :
    professor_overview up ln1p now st name =
      { handle := some pr.rmp_id,
        state := { (_name_to_professor up st name).state with id_professor_map :=
          (pr.rmp_id, { pr with score := some (overviewScore
            (_weighted_score ln1p now resp 157680000).1
            (_weighted_score ln1p now resp 157680000).2
            (_weighted_score ln1p now resp 31536000).1
            (_weighted_score ln1p now resp 31536000).2) }) ::
            ((_name_to_professor up st name).state).id_professor_map },
        searches := (_name_to_professor up st name).searches, fetches := 1 } := by
  simp [professor_overview, h, hsc, hf]


/-- Resolving against a state whose record store was just updated at the
first candidate's id returns the updated record with no upstream call. -/
theorem name_to_professor_after_update (up : Upstream) (stR : ControllerData)
    (name : String) (ids : List Nat) (k : Nat) (pr2 : Professor)
    (hmap : List.lookup (toLowerStr name) stR.name_id_map = some ids)
    (hhead : ids.head? = some k) :
    _name_to_professor up
        { stR with id_professor_map := (k, pr2) :: stR.id_professor_map } name =
      { professor := some pr2,
        state := { stR with id_professor_map := (k, pr2) :: stR.id_professor_map },
        searches := 0 } := by
  rw [name_to_professor_of_hit up
    { stR with id_professor_map := (k, pr2) :: stR.id_professor_map } name ids hmap]
  rw [hhead]
  simp [lookup_cons_self]

/-- Running `professor_overview` on a state where resolution is a pure hit
returning an already-scored record: the handle comes back unchanged with
zero upstream calls. -/
theorem professor_overview_of_resolved_scored (up : Upstream) (ln1p : ℚ → ℚ)
    (now : Nat) (st : ControllerData) (name : String) (pr : Professor) (sc : Score)
    (h : _name_to_professor up st name =
      { professor := some pr, state := st, searches := 0 })
    (hsc : pr.score = some sc) :
    professor_overview up ln1p now st name =
      { handle := some pr.rmp_id, state := st, searches := 0, fetches := 0 } := by
  simp [professor_overview, h, hsc]

/-- C3: if `professor_overview(name)` succeeds (returns handle `id`), an
immediately repeated call from the resulting state (at any clock reading,
with no upstream change) returns the same handle and leaves the state
identical — so the Score read through the handle is the same both times —
while performing zero upstream calls (no search and no ratings fetch);
moreover the record designated by the handle carries a Score. -/
theorem professor_overview_idempotent (up : Upstream) (ln1p : ℚ → ℚ)
    (now now2 : Nat) (st : ControllerData) (name : String) (id : Nat)
    (hwf : StoreWF st)
    (h1 : (professor_overview up ln1p now st name).handle = some id) :
    professor_overview up ln1p now2
        ((professor_overview up ln1p now st name).state) name =
      { handle := some id,
        state := (professor_overview up ln1p now st name).state,
        searches := 0, fetches := 0 } ∧
    (scoreOf ((professor_overview up ln1p now st name).state) id).isSome = true := by
  rcases hp : (_name_to_professor up st name).professor with _ | pr
  · rw [professor_overview_of_none up ln1p now st name hp] at h1
    simp at h1
  · obtain ⟨⟨ids, hmap, hhead⟩, hlook, hwfR⟩ :=
      name_to_professor_some up st name pr hwf hp
    rcases hsc : pr.score with _ | sc
    · rcases hf : up.fetchRatings pr.rmp_id none with _ | resp
      · rw [professor_overview_of_fetch_fail up ln1p now st name pr hp hsc hf] at h1
        simp at h1
      · have hov := professor_overview_of_fetch up ln1p now st name pr resp hp hsc hf
        rw [hov] at h1 ⊢
        have hid : pr.rmp_id = id := by simpa using h1
        have hres2 := name_to_professor_after_update up
          ((_name_to_professor up st name).state) name ids pr.rmp_id
          { pr with score := some (overviewScore
              (_weighted_score ln1p now resp 157680000).1
              (_weighted_score ln1p now resp 157680000).2
              (_weighted_score ln1p now resp 31536000).1
              (_weighted_score ln1p now resp 31536000).2) } hmap hhead
        have hov2 := professor_overview_of_resolved_scored up ln1p now2 _ name _ _
          hres2 rfl
        rw [hov2]
        constructor
        · simp [hid]
        · rw [← hid]
          simp [scoreOf, lookup_cons_self]
    · have hov := professor_overview_of_scored up ln1p now st name pr sc hp hsc
      rw [hov] at h1 ⊢
      have hid : pr.rmp_id = id := by simpa using h1
      have hres2 : _name_to_professor up
          ((_name_to_professor up st name).state) name =
          { professor := some pr,
            state := (_name_to_professor up st name).state, searches := 0 } := by
        rw [name_to_professor_of_hit up _ name ids hmap]
        rw [hhead]
        simp [hlook]
      have hov2 := professor_overview_of_resolved_scored up ln1p now2 _ name pr sc
        hres2 hsc
      rw [hov2]
      constructor
      · simp [hid]
      · rw [← hid]
        simp [scoreOf, hlook, hsc]

/-- Resolution only looks at the lower-cased name. -/
theorem name_to_professor_congr (up : Upstream) (st : ControllerData)
    (n1 n2 : String) (h : toLowerStr n1 = toLowerStr n2) :
    _name_to_professor up st n1 = _name_to_professor up st n2 := by
  unfold _name_to_professor
  rw [h]

/-- C6: on upstream search failure the resolver returns nothing and the
controller state is untouched — the name is not negatively cached and no
record is created — and a subsequent resolution of the same name performs
the upstream search again (one more search call, same outcome). -/
theorem name_to_professor_search_fail (up : Upstream) (st : ControllerData)
    (name : String)
    (hm : st.name_id_map.lookup (toLowerStr name) = none)
    (hs : up.searchResp (toLowerStr name) = none) :
    _name_to_professor up st name =
      { professor := none, state := st, searches := 1 } ∧
    _name_to_professor up ((_name_to_professor up st name).state) name =
      { professor := none, state := st, searches := 1 } := by
  have h1 : _name_to_professor up st name =
      { professor := none, state := st, searches := 1 } := by
    simp [_name_to_professor, hm, hs]
  refine ⟨h1, ?_⟩
  rw [h1]
  exact h1

/-- C7: name resolution is case-insensitive — two casings of a name give
the same result (same record handle, same state, same upstream calls),
because only the lower-cased name is ever looked up or inserted. -/
theorem name_resolution_case_insensitive (up : Upstream) (st : ControllerData)
    (n1 n2 : String) (h : toLowerStr n1 = toLowerStr n2) :
    _name_to_professor up st n1 = _name_to_professor up st n2 :=
  name_to_professor_congr up st n1 n2 h

/-- C9: a successful search with no usable candidate (no TEACHER group,
empty document list, or no id parsing after stripping `teacher:`) caches
the empty candidate list under the normalized name and resolves to
nothing; afterwards every resolution of that name, in any casing, returns
nothing with zero upstream search calls. -/
theorem name_to_professor_empty_cached (up : Upstream) (st : ControllerData)
    (name : String) (groups : List GroupResponse)
    (hm : st.name_id_map.lookup (toLowerStr name) = none)
    (hs : up.searchResp (toLowerStr name) = some groups)
    (hids : (_search_professor_extract groups).filterMap
      (fun r => parseProfId r.id) = []) :
    _name_to_professor up st name =
      { professor := none,
        state := { st with name_id_map := (toLowerStr name, []) :: st.name_id_map },
        searches := 1 } ∧
    ∀ name2, toLowerStr name2 = toLowerStr name →
      _name_to_professor up
          { st with name_id_map := (toLowerStr name, []) :: st.name_id_map } name2 =
        { professor := none,
          state := { st with name_id_map := (toLowerStr name, []) :: st.name_id_map },
          searches := 0 } := by
  have hnone : ∀ pr ∈ _search_professor_extract groups, parseProfId pr.id = none :=
    fun pr hpr => List.filterMap_eq_nil_iff.mp hids pr hpr
  constructor
  · simp only [_name_to_professor, hm, hs]
    rw [hids, ingestProfessors_of_none _ hnone]
    simp
  · intro name2 h2
    rw [name_to_professor_congr up _ name2 name h2]
    rw [name_to_professor_of_hit up _ name [] (lookup_cons_self _ _ _)]
    simp

/-- C2: in `professor_overview`, the published overall quality is `None`
exactly when the long-window weight is below 8.0 and is `score / weight`
otherwise; the recent quality is `None` exactly when the 1-year weight is
below 2.0 and is `score_yr / weight_yr` otherwise. -/
theorem overview_quality_thresholds (score weight score_yr weight_yr : ℚ) :
    ((overviewScore score weight score_yr weight_yr).quality = none ↔ weight < 8) ∧
    (¬ weight < 8 →
      (overviewScore score weight score_yr weight_yr).quality =
        some (score / weight)) ∧
    ((overviewScore score weight score_yr weight_yr).quality_yr = none ↔
      weight_yr < 2) ∧
    (¬ weight_yr < 2 →
      (overviewScore score weight score_yr weight_yr).quality_yr =
        some (score_yr / weight_yr)) := by
  refine ⟨?_, fun h => by simp [overviewScore, h], ?_,
    fun h => by simp [overviewScore, h]⟩
  · by_cases h : weight < 8 <;> simp [overviewScore, h]
  · by_cases h : weight_yr < 2 <;> simp [overviewScore, h]

/-- C10: under the preconditions (clock at least `offset`, every
timestamp at or after the epoch and inside the `i64` range), the scorer's
unsigned arithmetic is safe: the checked scorer succeeds with exactly the
scorer's result (neither `u64` subtraction wraps — the computation is
total), every rating surviving the filter has `u64` timestamp at least
`offsetted = now - offset`, and the `i64`-to-`u64` timestamp cast is
value-preserving. -/
theorem weighted_score_arith_safe (ln1p : ℚ → ℚ) (now : Nat)
    (data : List Rating) (offset : Nat)
    (h1 : offset ≤ now) (h2 : now < 2 ^ 64)
    (h3 : ∀ r ∈ data, 0 ≤ r.date_ts ∧ r.date_ts < 2 ^ 63) :
    _weighted_score_checked ln1p now data offset =
      some (_weighted_score ln1p now data offset) ∧
    (∀ r ∈ data, ¬ u64ofInt r.date_ts < now - offset →
      now - offset ≤ u64ofInt r.date_ts) ∧
    (∀ r ∈ data, u64ofInt r.date_ts = r.date_ts.toNat) := by
  refine ⟨?_, ?_, ?_⟩
  · unfold _weighted_score_checked _weighted_score
    rw [show checkedSub now offset = some (now - offset) by
      simp [checkedSub, Nat.not_lt.mpr h1]]
    rw [usub64_eq_sub h1 h2]
    exact foldlM_checkedStep_eq ln1p (now - offset) offset data (0, 0)
  · intro r _ hk
    omega
  · intro r hr
    exact u64ofInt_eq_toNat (h3 r hr).1 (by have := (h3 r hr).2; omega)

/-- C4, amended: the overall quality of `professor_overview` is computed
over a trailing 157680000-second (~5-year) window, not all time: a rating
dated before the cutoff contributes nothing (removing it leaves both sum
and weight unchanged). -/
theorem overall_quality_five_year_window (ln1p : ℚ → ℚ) (now : Nat)
    (r : Rating) (data : List Rating)
    (h : u64ofInt r.date_ts < usub64 now 157680000) :
    _weighted_score ln1p now (r :: data) 157680000 =
      _weighted_score ln1p now data 157680000 := by
  unfold _weighted_score
  rw [List.foldl_cons]
  rw [show scoreStep ln1p (usub64 now 157680000) 157680000 (0, 0) r = (0, 0) by
    simp [scoreStep, h]]

/-- C5, amended: a rating dated at or after `now` is kept by the filter,
and its time weight is at least 1 (the value a rating dated exactly at
`now` gets) — but it is not capped there: the factor is the unclamped
linear ramp `(timestamp - cutoff) / window`. -/
theorem future_rating_kept_unclamped (now offset : Nat) (r : Rating)
    (h1 : offset ≤ now) (h2 : now < 2 ^ 64) (h3 : 0 < offset)
    (h4 : (now : Int) ≤ r.date_ts) (h5 : r.date_ts < 2 ^ 63) :
    ¬ u64ofInt r.date_ts < usub64 now offset ∧
    1 ≤ timeWeight (usub64 now offset) offset r := by
  have h0 : (0 : Int) ≤ r.date_ts :=
    le_trans (by exact_mod_cast Nat.zero_le now) h4
  have htn : u64ofInt r.date_ts = r.date_ts.toNat := u64ofInt_eq_toNat h0 (by omega)
  rw [usub64_eq_sub h1 h2]
  constructor
  · rw [htn]
    omega
  · unfold timeWeight
    rw [htn, usub64_eq_sub (by omega) (by omega)]
    rw [le_div_iff₀ (by exact_mod_cast h3)]
    rw [one_mul]
    have : offset ≤ r.date_ts.toNat - (now - offset) := by omega
    exact_mod_cast this

/-- C8, amended: for a fixed clock reading the scorer is deterministic:
its result is a function of `(ratings, window, now)` alone (the embedding
takes no controller state at all), so two calls at the same instant with
the same arguments agree. -/
theorem weighted_score_deterministic (ln1p : ℚ → ℚ) (now1 now2 : Nat)
    (data : List Rating) (offset : Nat) (h : now1 = now2) :
    _weighted_score ln1p now1 data offset =
      _weighted_score ln1p now2 data offset := by
  rw [h]

/-- C1 fails exactly as stated: a rating dated before the Unix epoch
(timestamp -1), which the section 4.1 reference algorithm discards as far
older than the cutoff, is kept by the code — the `i64 as u64` cast wraps
to `2 ^ 64 - 1` — and contributes a huge weight instead of nothing. -/
theorem weighted_score_spec_mismatch_counterexample :
    weighted_score_spec (fun _ => 0) 1000 [mkRating 4 4 (-1) 0 0] 100 = (0, 0) ∧
    _weighted_score (fun _ => 0) 1000 [mkRating 4 4 (-1) 0 0] 100 ≠ (0, 0) ∧
    _weighted_score (fun _ => 0) 1000 [mkRating 4 4 (-1) 0 0] 100 ≠
      weighted_score_spec (fun _ => 0) 1000 [mkRating 4 4 (-1) 0 0] 100 := by
  refine ⟨?_, ?_, ?_⟩
  · simp [weighted_score_spec, mkRating]
  · simp [_weighted_score, scoreStep, mkRating, usub64, u64ofInt, qualityOf,
      thumbsWeight, timeWeight, quantityWeight]
  · simp [_weighted_score, weighted_score_spec, scoreStep, mkRating, usub64,
      u64ofInt, qualityOf, thumbsWeight, timeWeight, quantityWeight]

/-- C4 fails as stated: with the clock at 1600000000, a rating dated
1000000000 (about 19 years earlier) is discarded by the 157680000-second
overall window — the scorer returns `(0, 0)` exactly as for the empty
list, so this fetched rating is not included in the overall quality. -/
theorem old_rating_excluded_counterexample :
    u64ofInt (mkRating 5 5 1000000000 0 0).date_ts <
      usub64 1600000000 157680000 ∧
    _weighted_score (fun _ => 0) 1600000000
      [mkRating 5 5 1000000000 0 0] 157680000 = (0, 0) ∧
    qualityOf (mkRating 5 5 1000000000 0 0) = 5 := by
  refine ⟨by decide, ?_, ?_⟩
  · simp [_weighted_score, scoreStep, mkRating, usub64, u64ofInt]
  · simp [qualityOf, mkRating]


/-- C5 fails as stated: at `now = 1000` with a 100-second window, a rating
dated 1100 (after `now`) is kept but gets time weight 2 — double the
weight 1 of a rating dated exactly at `now`, not a value capped at 1. -/
theorem future_time_weight_uncapped_counterexample :
    timeWeight (usub64 1000 100) 100 (mkRating 3 3 1100 0 0) = 2 ∧
    timeWeight (usub64 1000 100) 100 (mkRating 3 3 1000 0 0) = 1 ∧
    ¬ timeWeight (usub64 1000 100) 100 (mkRating 3 3 1100 0 0) ≤
      timeWeight (usub64 1000 100) 100 (mkRating 3 3 1000 0 0) ∧
    _weighted_score (fun _ => 0) 1000 [mkRating 3 3 1100 0 0] 100 = (6, 2) := by
  refine ⟨?_, ?_, ?_, ?_⟩ <;>
    simp [timeWeight, _weighted_score, scoreStep, thumbsWeight, qualityOf,
      quantityWeight, mkRating, usub64, u64ofInt] <;>
    norm_num

/-- C8 fails as stated: `_weighted_score` reads the system clock, so two
calls with identical `(ratings, window)` arguments made at different
instants can return different pairs — the result is not determined by the
arguments alone. -/
theorem weighted_score_clock_dependent_counterexample :
    _weighted_score (fun _ => 0) 1000 [mkRating 4 4 1000 0 0] 100 ≠
      _weighted_score (fun _ => 0) 2000 [mkRating 4 4 1000 0 0] 100 := by
  simp [_weighted_score, scoreStep, mkRating, usub64, u64ofInt, qualityOf,
    thumbsWeight, timeWeight, quantityWeight]

/-- Witness for C1 (amended): an in-window rating at a concrete clock
reading, with the preconditions discharged. -/
theorem weighted_score_matches_spec_witness :
    (100 ≤ 1000 ∧ 1000 < 2 ^ 64 ∧
      ∀ r ∈ [mkRating 4 4 950 0 0], 0 ≤ r.date_ts ∧ r.date_ts < 2 ^ 63) ∧
    _weighted_score (fun _ => 0) 1000 [mkRating 4 4 950 0 0] 100 =
      weighted_score_spec (fun _ => 0) 1000 [mkRating 4 4 950 0 0] 100 :=
  ⟨⟨by norm_num, by norm_num, by decide⟩,
    weighted_score_matches_spec (fun _ => 0) 1000 [mkRating 4 4 950 0 0] 100
      (by norm_num) (by norm_num) (by decide)⟩

/-- Witness for C2: weight 9 clears the overall threshold, weight 1 does
not clear the 1-year threshold. -/
theorem overview_quality_thresholds_witness :
    (overviewScore 36 9 5 1).quality = some (36 / 9) ∧
    (overviewScore 36 9 5 1).quality_yr = none :=
  ⟨(overview_quality_thresholds 36 9 5 1).2.1 (by norm_num),
   ((overview_quality_thresholds 36 9 5 1).2.2.1).mpr (by norm_num)⟩

/-- Witness for C3: a cold resolution and scoring of "Jane Doe" against
the fixture upstream, repeated at a later clock reading. -/
theorem professor_overview_idempotent_witness :
    (StoreWF ControllerData.new ∧
      (professor_overview upFixture (fun _ => 0) 1600000000
        ControllerData.new "Jane Doe").handle = some 42) ∧
    professor_overview upFixture (fun _ => 0) 1700000000
        ((professor_overview upFixture (fun _ => 0) 1600000000
          ControllerData.new "Jane Doe").state) "Jane Doe" =
      { handle := some 42,
        state := (professor_overview upFixture (fun _ => 0) 1600000000
          ControllerData.new "Jane Doe").state,
        searches := 0, fetches := 0 } ∧
    (scoreOf ((professor_overview upFixture (fun _ => 0) 1600000000
      ControllerData.new "Jane Doe").state) 42).isSome = true :=
  ⟨⟨by decide, by decide⟩,
    professor_overview_idempotent upFixture (fun _ => 0) 1600000000 1700000000
      ControllerData.new "Jane Doe" 42 (by decide) (by decide)⟩

/-- Witness for C4 (amended): dropping a 19-year-old rating leaves the
overall pair unchanged. -/
theorem overall_quality_five_year_window_witness :
    u64ofInt (mkRating 2 2 100 0 0).date_ts < usub64 1600000000 157680000 ∧
    _weighted_score (fun _ => 0) 1600000000
        [mkRating 2 2 100 0 0] 157680000 =
      _weighted_score (fun _ => 0) 1600000000 ([] : List Rating) 157680000 :=
  ⟨by decide,
    overall_quality_five_year_window (fun _ => 0) 1600000000
      (mkRating 2 2 100 0 0) [] (by decide)⟩

/-- Witness for C5 (amended): a rating 100 seconds in the future of
`now = 1000` under a 100-second window. -/
theorem future_rating_kept_unclamped_witness :
    (100 ≤ 1000 ∧ 1000 < 2 ^ 64 ∧ 0 < 100 ∧
      ((1000 : Nat) : Int) ≤ (mkRating 3 3 1100 0 0).date_ts ∧
      (mkRating 3 3 1100 0 0).date_ts < 2 ^ 63) ∧
    (¬ u64ofInt (mkRating 3 3 1100 0 0).date_ts < usub64 1000 100 ∧
      1 ≤ timeWeight (usub64 1000 100) 100 (mkRating 3 3 1100 0 0)) :=
  ⟨⟨by norm_num, by norm_num, by norm_num, by decide, by decide⟩,
    future_rating_kept_unclamped 1000 100 (mkRating 3 3 1100 0 0)
      (by norm_num) (by norm_num) (by norm_num) (by decide) (by decide)⟩

/-- Witness for C6: searching "Nobody" fails against the fixture
upstream, and the state stays the pristine one. -/
theorem name_to_professor_search_fail_witness :
    (List.lookup (toLowerStr "Nobody") ControllerData.new.name_id_map = none ∧
      upFixture.searchResp (toLowerStr "Nobody") = none) ∧
    _name_to_professor upFixture ControllerData.new "Nobody" =
      { professor := none, state := ControllerData.new, searches := 1 } ∧
    _name_to_professor upFixture
        ((_name_to_professor upFixture ControllerData.new "Nobody").state)
        "Nobody" =
      { professor := none, state := ControllerData.new, searches := 1 } :=
  ⟨⟨by decide, by decide⟩,
    name_to_professor_search_fail upFixture ControllerData.new "Nobody"
      (by decide) (by decide)⟩

/-- Witness for C7: the two casings of "Jane Doe" resolve identically. -/
theorem name_resolution_case_insensitive_witness :
    toLowerStr "Jane Doe" = toLowerStr "JANE DOE" ∧
    _name_to_professor upFixture ControllerData.new "Jane Doe" =
      _name_to_professor upFixture ControllerData.new "JANE DOE" :=
  ⟨by decide,
    name_resolution_case_insensitive upFixture ControllerData.new
      "Jane Doe" "JANE DOE" (by decide)⟩

/-- Witness for C8 (amended): at one fixed clock reading the scorer gives
one answer. -/
theorem weighted_score_deterministic_witness :
    (1000 : Nat) = 1000 ∧
    _weighted_score (fun _ => 0) 1000 [mkRating 4 4 950 0 0] 100 =
      _weighted_score (fun _ => 0) 1000 [mkRating 4 4 950 0 0] 100 :=
  ⟨rfl,
    weighted_score_deterministic (fun _ => 0) 1000 1000
      [mkRating 4 4 950 0 0] 100 rfl⟩

/-- Witness for C9: searching "Ghost" succeeds against the fixture with an
unparsable hit; the empty candidate list is cached and "GHOST" afterwards
resolves to nothing with no search. -/
theorem name_to_professor_empty_cached_witness :
    (List.lookup (toLowerStr "Ghost") ControllerData.new.name_id_map = none ∧
      upFixture.searchResp (toLowerStr "Ghost") = some ghostGroups ∧
      (_search_professor_extract ghostGroups).filterMap
        (fun r => parseProfId r.id) = [] ∧
      toLowerStr "GHOST" = toLowerStr "Ghost") ∧
    _name_to_professor upFixture ControllerData.new "Ghost" =
      { professor := none,
        state := { ControllerData.new with name_id_map :=
          (toLowerStr "Ghost", []) :: ControllerData.new.name_id_map },
        searches := 1 } ∧
    _name_to_professor upFixture
        { ControllerData.new with name_id_map :=
          (toLowerStr "Ghost", []) :: ControllerData.new.name_id_map } "GHOST" =
      { professor := none,
        state := { ControllerData.new with name_id_map :=
          (toLowerStr "Ghost", []) :: ControllerData.new.name_id_map },
        searches := 0 } :=
  ⟨⟨by decide, by decide, by decide, by decide⟩,
    (name_to_professor_empty_cached upFixture ControllerData.new "Ghost"
      ghostGroups (by decide) (by decide) (by decide)).1,
    (name_to_professor_empty_cached upFixture ControllerData.new "Ghost"
      ghostGroups (by decide) (by decide) (by decide)).2 "GHOST" (by decide)⟩

/-- Witness for C10: one rating 50 seconds inside a 100-second window at
`now = 1000`. -/
theorem weighted_score_arith_safe_witness :
    (100 ≤ 1000 ∧ 1000 < 2 ^ 64 ∧
      ∀ r ∈ [mkRating 4 4 950 0 0], 0 ≤ r.date_ts ∧ r.date_ts < 2 ^ 63) ∧
    _weighted_score_checked (fun _ => 0) 1000 [mkRating 4 4 950 0 0] 100 =
      some (_weighted_score (fun _ => 0) 1000 [mkRating 4 4 950 0 0] 100) :=
  ⟨⟨by norm_num, by norm_num, by decide⟩,
    (weighted_score_arith_safe (fun _ => 0) 1000 [mkRating 4 4 950 0 0] 100
      (by norm_num) (by norm_num) (by decide)).1⟩
